import Mathlib

/-!
Shallow embedding of the declarative reconciliation engine of the
`oddly.elasticstack` Ansible collection:

* `Api.check_version_compatibility` — the pure decision logic of
  `plugins/module_utils/api.py` (lines 103-165), parameterized by the two
  major versions that the Python code reads from the client library and
  from the server before the branching starts.
* `User.handle_absent` / `User.handle_present` — the reconciliation logic
  of `plugins/module_utils/elasticsearch_user.py` (class `User`).
* `Role.handle_absent` / `Role.handle_present` — the reconciliation logic
  of `plugins/module_utils/elasticsearch_role.py` (class `Role`).

Remote state is supplied as an environment of oracle responses (one per
remote call the handler can make); every remote call the handler issues is
recorded in an event trace, so that non-mutation properties are statements
about the trace.  Python dicts are modelled as association lists, and
Python `str(...)` of a dict by an injective string rendering.
-/

deriving instance DecidableEq for Except

namespace Elasticstack

/-- A Python dict from attribute name to (opaque) attribute value, as returned
inside a `get` response; modelled as an association list. -/
abbrev AttrMap := List (String × String)

/-- A top-level `get` response body: a dict from resource name to its
attribute dict (Elasticsearch returns `{name: {...}}`). -/
abbrev RawDict := List (String × AttrMap)

/-- Python `d.get(k)` on an association-list dict. -/
def alistGet {α : Type} (m : List (String × α)) (k : String) : Option α :=
  match m with
  | [] => none
  | (k2, v) :: rest => if k2 = k then some v else alistGet rest k

/-- Python `==` on two attribute dicts (order-insensitive key/value equality). -/
def attrMapEqv (m1 m2 : AttrMap) : Bool :=
  ((m1.map Prod.fst) ++ (m2.map Prod.fst)).all
    (fun k => alistGet m1 k == alistGet m2 k)

/-- Python `==` on two top-level response dicts: same keys, and the nested
attribute dicts equal key-for-key. -/
def rawEqv (r1 r2 : RawDict) : Bool :=
  ((r1.map Prod.fst) ++ (r2.map Prod.fst)).all
    (fun k =>
      match alistGet r1 k, alistGet r2 k with
      | some a, some b => attrMapEqv a b
      | none, none => true
      | _, _ => false)

/-- Model of Python `str(...)` body for a list of already-rendered entries. -/
def strJoin (l : List String) : String :=
  "[" ++ String.intercalate (", ") l ++ "]"

/-- Model of Python `str(d)` for an attribute dict. -/
def strAttrMap (m : AttrMap) : String :=
  strJoin (m.map (fun p => p.1 ++ ": " ++ p.2))

/-- Model of Python `str(d)` for a top-level response dict. -/
def strRawDict (r : RawDict) : String :=
  strJoin (r.map (fun p => p.1 ++ ": " ++ strAttrMap p.2))

/-- Model of Python `str` of an optional value (`None` when missing). -/
def strOptVal : Option String → String
  | none => "None"
  | some v => v

/-- Model of Python `str(d)` for a dict whose values may be `None` (the shape
of the comparison projection `{k: data.get(k) for k in compare_keys}`). -/
def strProjMap (l : List (String × Option String)) : String :=
  strJoin (l.map (fun p => p.1 ++ ": " ++ strOptVal p.2))

/-- `CompatibilityReport`: the dict built by `Api.check_version_compatibility`
(`api.py` lines 128-133). -/
structure CompatibilityReport where
  client_version : Nat
  server_version : Nat
  compatible : Bool
  message : String
deriving DecidableEq

namespace Api

/-- Message raised for the client 9 / server 8 pairing (`api.py` 138-142;
surrounding quote characters of the Python literal are elided). -/
def msgIncompatible (c s : Nat) : String :=
  "Incompatible versions: elasticsearch-py " ++ toString c ++
    ".x cannot connect to Elasticsearch " ++ toString s ++
    ".x. Install elasticsearch>=8,<9 or upgrade your Elasticsearch server to 9.x first."

/-- Advisory message for the client 8 / server 9 pairing (`api.py` 147-151). -/
def msgForward (c s : Nat) : String :=
  "elasticsearch-py " ++ toString c ++
    ".x is forward-compatible with Elasticsearch " ++ toString s ++
    ".x. Consider upgrading to elasticsearch>=9,<10 for full ES 9.x feature support."

/-- Message for equal major versions (`api.py` 154-157). -/
def msgFullyCompatible (c s : Nat) : String :=
  "elasticsearch-py " ++ toString c ++
    ".x is fully compatible with Elasticsearch " ++ toString s ++ ".x."

/-- Message for any other pairing (`api.py` 160-163). -/
def msgUnverified (c s : Nat) : String :=
  "elasticsearch-py " ++ toString c ++ ".x with Elasticsearch " ++ toString s ++
    ".x - compatibility not verified."

/-- `Api.check_version_compatibility` (`api.py` lines 103-165), after the two
version reads: raises (`.error`) for client 9 / server 8, otherwise returns
the report dict.  The `compatible=False` assignment of the raising branch is
unobservable because the branch raises before returning. -/
def check_version_compatibility (client_ver server_ver : Nat) :
    Except String CompatibilityReport :=
  if client_ver = 9 ∧ server_ver = 8 then
    .error (msgIncompatible client_ver server_ver)
  else if client_ver = 8 ∧ server_ver = 9 then
    .ok ⟨client_ver, server_ver, true, msgForward client_ver server_ver⟩
  else if client_ver = server_ver then
    .ok ⟨client_ver, server_ver, true, msgFullyCompatible client_ver server_ver⟩
  else
    .ok ⟨client_ver, server_ver, true, msgUnverified client_ver server_ver⟩

end Api

/-- The keyword arguments assembled by `User.put`
(`elasticsearch_user.py` 144-154); `password = none` means the `password`
key is absent from the kwargs dict. -/
structure UserPayload where
  username : String
  email : Option String
  full_name : Option String
  enabled : Bool
  roles : List String
  password : Option String
deriving DecidableEq

/-- The arguments passed by `Role.put` (`elasticsearch_role.py` 126-129). -/
structure RolePayload where
  name : String
  cluster : List String
  indices : List AttrMap
deriving DecidableEq

/-- One remote call issued during an invocation.  `versionCheck` would be a
call to `Api.check_version_compatibility`; it is part of the event alphabet
so that its (non-)occurrence can be stated. -/
inductive Ev
  | versionCheck
  | listAll
  | getOne
  | putUser (p : UserPayload)
  | putRole (p : RolePayload)
  | deleteCall
deriving DecidableEq

/-- Whether an event is a mutating directory call (`put` or `delete`). -/
def Ev.isMutating : Ev → Bool
  | .putUser _ => true
  | .putRole _ => true
  | .deleteCall => true
  | _ => false

/-- Whether an event is a directory call (`listAll`/`get`/`put`/`delete`). -/
def Ev.isDirCall : Ev → Bool
  | .versionCheck => false
  | _ => true

/-- The `result` dict of a module invocation: `changed`, optional `msg`,
optional `diff={before, after}`. -/
structure ModuleResult where
  changed : Bool
  msg : Option String
  diff : Option (String × String)
deriving DecidableEq

/-- How an invocation ends: `fatal` models `module.fail_json` (and an
uncaught exception, which also aborts the invocation), `ok` models a normal
return of the result dict. -/
inductive Outcome
  | fatal (msg : String)
  | ok (r : ModuleResult)
deriving DecidableEq

/-- The `update_password` module option (choices `always` / `on_create`). -/
inductive UpdatePolicy
  | always
  | on_create
deriving DecidableEq

/-- The `state` module option (choices `present` / `absent`). -/
inductive TargetState
  | present
  | absent
deriving DecidableEq

/-- Caller-supplied desired state of a user
(`elasticsearch_user.py` 17-28; `password` is a required `str` option of the
module, so it is always present). -/
structure UserDesired where
  user_name : String
  full_name : Option String
  password : String
  email : Option String
  roles : List String
  enabled : Bool
  update_password : UpdatePolicy
deriving DecidableEq

/-- Caller-supplied desired state of a role (`elasticsearch_role.py` 17-23). -/
structure RoleDesired where
  role_name : String
  cluster : List String
  indices : List AttrMap
deriving DecidableEq

/-- Oracle responses of the remote directory for one user invocation, one per
call site: the key set of `get_all().raw`, the `get()` response before the
put, the `created` flag of the put response, the `get()` response after the
put, and the `found` flag of the delete response.  `.error` means the call
raised. -/
structure UserEnv where
  allUsers : Except String (List String)
  preGet : Except String RawDict
  putCreated : Except String Bool
  postGet : Except String RawDict
  deleteFound : Except String Bool
deriving DecidableEq

/-- Oracle responses of the remote directory for one role invocation; the
`created` flag models `res.raw['role']['created']`. -/
structure RoleEnv where
  allRoles : Except String (List String)
  preGet : Except String RawDict
  putCreated : Except String Bool
  postGet : Except String RawDict
  deleteFound : Except String Bool
deriving DecidableEq

/-- The tuple `compare_keys` of `elasticsearch_user.py` line 125. -/
def userCompareKeys : List String :=
  ["roles", "full_name", "email", "enabled", "metadata"]

/-- The comparison projection `{k: data.get(k) for k in compare_keys}`
(`elasticsearch_user.py` 126-127). -/
def userProjection (data : AttrMap) : List (String × Option String) :=
  userCompareKeys.map (fun k => (k, alistGet data k))

namespace User

/-- The kwargs dict built by `User.put` (`elasticsearch_user.py` 144-154). -/
def put_payload (d : UserDesired) (password : Option String) : UserPayload :=
  ⟨d.user_name, d.email, d.full_name, d.enabled, d.roles, password⟩

/-- `User.handle_absent` (`elasticsearch_user.py` 50-75): trace of remote
calls and outcome.  Quote characters of the Python message literals are
elided. -/
def handle_absent (d : UserDesired) (check_mode : Bool) (env : UserEnv) :
    List Ev × Outcome :=
  match env.allUsers with
  | .error e => ([Ev.listAll], .fatal ("Failed to get users: " ++ e))
  | .ok all_users =>
    if !(all_users.contains d.user_name) then
      ([Ev.listAll], .ok ⟨false, none, none⟩)
    else if check_mode then
      ([Ev.listAll], .ok ⟨true, some (d.user_name ++ " would be deleted"), none⟩)
    else
      match env.deleteFound with
      | .error e =>
        ([Ev.listAll, Ev.deleteCall],
          .fatal ("Failed to delete user " ++ d.user_name ++ ": " ++ e))
      | .ok found =>
        if found then
          ([Ev.listAll, Ev.deleteCall],
            .ok ⟨true, some (d.user_name ++ " has been deleted"), none⟩)
        else
          ([Ev.listAll, Ev.deleteCall], .ok ⟨false, none, none⟩)

/-- The tail of `User.handle_present` from line 118 on: `created` was false,
so compare the pre/post snapshots on the comparison projection
(`elasticsearch_user.py` 118-136). -/
def compare_branch (d : UserDesired) (diff_mode : Bool) (env : UserEnv)
    (evs : List Ev) (pre_raw : RawDict) : List Ev × Outcome :=
  match env.postGet with
  | .error e => (evs ++ [Ev.getOne], .fatal ("unhandled exception: " ++ e))
  | .ok post_raw =>
    let pre_data := (alistGet pre_raw d.user_name).getD []
    let post_data := (alistGet post_raw d.user_name).getD []
    if userProjection pre_data ≠ userProjection post_data then
      (evs ++ [Ev.getOne],
        .ok ⟨true, some (d.user_name ++ " has been updated"),
          if diff_mode then some (strAttrMap pre_data, strAttrMap post_data)
          else none⟩)
    else
      (evs ++ [Ev.getOne], .ok ⟨false, none, none⟩)

/-- The part of `User.handle_present` after the check-mode test
(`elasticsearch_user.py` 99-136): build the payload — suppressing the
password when `update_password == 'on_create'` and the user exists — issue
the put, and act on the `created` flag. -/
def put_branch (d : UserDesired) (diff_mode : Bool) (env : UserEnv)
    (evs : List Ev) (user_exists : Bool) (pre : Option RawDict) :
    List Ev × Outcome :=
  let send_password : Option String :=
    if d.update_password = UpdatePolicy.on_create ∧ user_exists then none
    else some d.password
  let evs := evs ++ [Ev.putUser (put_payload d send_password)]
  match env.putCreated with
  | .error e =>
    (evs, .fatal ("Failed to create/update user " ++ d.user_name ++ ": " ++ e))
  | .ok created =>
    if created then
      if diff_mode then
        match env.postGet with
        | .error e => (evs ++ [Ev.getOne], .fatal ("unhandled exception: " ++ e))
        | .ok post_raw =>
          (evs ++ [Ev.getOne],
            .ok ⟨true, some (d.user_name ++ " has been created"),
              some ("", strRawDict post_raw)⟩)
      else
        (evs, .ok ⟨true, some (d.user_name ++ " has been created"), none⟩)
    else
      match pre with
      | none => (evs, .ok ⟨false, none, none⟩)
      | some pre_raw => compare_branch d diff_mode env evs pre_raw

/-- `User.handle_present` (`elasticsearch_user.py` 77-136).  The pre-fetch
`self.get()` of an existing user happens before the check-mode test and is
not wrapped in try/except, so its failure aborts the invocation. -/
def handle_present (d : UserDesired) (check_mode diff_mode : Bool)
    (env : UserEnv) : List Ev × Outcome :=
  match env.allUsers with
  | .error e => ([Ev.listAll], .fatal ("Failed to get users: " ++ e))
  | .ok all_users =>
    if all_users.contains d.user_name then
      match env.preGet with
      | .error e => ([Ev.listAll, Ev.getOne], .fatal ("unhandled exception: " ++ e))
      | .ok pre_raw =>
        if check_mode then
          ([Ev.listAll, Ev.getOne],
            .ok ⟨true, some (d.user_name ++ " would be updated"), none⟩)
        else
          put_branch d diff_mode env [Ev.listAll, Ev.getOne] true (some pre_raw)
    else
      if check_mode then
        ([Ev.listAll], .ok ⟨true, some (d.user_name ++ " would be created"), none⟩)
      else
        put_branch d diff_mode env [Ev.listAll] false none

/-- `User.handle` (`elasticsearch_user.py` 44-48): dispatch on `state`. -/
def run (d : UserDesired) (state : TargetState) (check_mode diff_mode : Bool)
    (env : UserEnv) : List Ev × Outcome :=
  match state with
  | .absent => handle_absent d check_mode env
  | .present => handle_present d check_mode diff_mode env

/-- The whole module invocation (`plugins/modules/elasticsearch_user.py`
`run_module` together with `User.__init__`): build the transport client —
whose only failure mode is a missing client library — then reconcile.  No
version-compatibility check is issued anywhere on this path. -/
def run_module (client_init : Except String Unit) (d : UserDesired)
    (state : TargetState) (check_mode diff_mode : Bool) (env : UserEnv) :
    List Ev × Outcome :=
  match client_init with
  | .error e => ([], .fatal e)
  | .ok _ => run d state check_mode diff_mode env

end User

namespace Role

/-- The arguments passed by `Role.put` (`elasticsearch_role.py` 126-129). -/
def put_payload (d : RoleDesired) : RolePayload :=
  ⟨d.role_name, d.cluster, d.indices⟩

/-- `Role.handle_absent` (`elasticsearch_role.py` 45-70). -/
def handle_absent (d : RoleDesired) (check_mode : Bool) (env : RoleEnv) :
    List Ev × Outcome :=
  match env.allRoles with
  | .error e => ([Ev.listAll], .fatal ("Failed to get roles: " ++ e))
  | .ok all_roles =>
    if !(all_roles.contains d.role_name) then
      ([Ev.listAll], .ok ⟨false, none, none⟩)
    else if check_mode then
      ([Ev.listAll], .ok ⟨true, some (d.role_name ++ " would be deleted"), none⟩)
    else
      match env.deleteFound with
      | .error e =>
        ([Ev.listAll, Ev.deleteCall],
          .fatal ("Failed to delete role " ++ d.role_name ++ ": " ++ e))
      | .ok found =>
        if found then
          ([Ev.listAll, Ev.deleteCall],
            .ok ⟨true, some (d.role_name ++ " has been deleted"), none⟩)
        else
          ([Ev.listAll, Ev.deleteCall], .ok ⟨false, none, none⟩)

/-- The tail of `Role.handle_present` from line 107 on: `created` was false,
so compare the whole pre/post `get` responses (`elasticsearch_role.py`
107-118); a role's comparison projection is its full snapshot. -/
def compare_branch (d : RoleDesired) (diff_mode : Bool) (env : RoleEnv)
    (evs : List Ev) (pre_raw : RawDict) : List Ev × Outcome :=
  match env.postGet with
  | .error e => (evs ++ [Ev.getOne], .fatal ("unhandled exception: " ++ e))
  | .ok post_raw =>
    if !(rawEqv pre_raw post_raw) then
      (evs ++ [Ev.getOne],
        .ok ⟨true, some (d.role_name ++ " has been updated"),
          if diff_mode then some (strRawDict pre_raw, strRawDict post_raw)
          else none⟩)
    else
      (evs ++ [Ev.getOne], .ok ⟨false, none, none⟩)

/-- The part of `Role.handle_present` after the check-mode test
(`elasticsearch_role.py` 93-118). -/
def put_branch (d : RoleDesired) (diff_mode : Bool) (env : RoleEnv)
    (evs : List Ev) (pre : Option RawDict) : List Ev × Outcome :=
  let evs := evs ++ [Ev.putRole (put_payload d)]
  match env.putCreated with
  | .error e =>
    (evs, .fatal ("Failed to create/update role " ++ d.role_name ++ ": " ++ e))
  | .ok created =>
    if created then
      if diff_mode then
        match env.postGet with
        | .error e => (evs ++ [Ev.getOne], .fatal ("unhandled exception: " ++ e))
        | .ok post_raw =>
          (evs ++ [Ev.getOne],
            .ok ⟨true, some (d.role_name ++ " has been created"),
              some ("", strRawDict post_raw)⟩)
      else
        (evs, .ok ⟨true, some (d.role_name ++ " has been created"), none⟩)
    else
      match pre with
      | none => (evs, .ok ⟨false, none, none⟩)
      | some pre_raw => compare_branch d diff_mode env evs pre_raw

/-- `Role.handle_present` (`elasticsearch_role.py` 72-118).  As for users,
the pre-fetch of an existing role precedes the check-mode test and is not
wrapped in try/except. -/
def handle_present (d : RoleDesired) (check_mode diff_mode : Bool)
    (env : RoleEnv) : List Ev × Outcome :=
  match env.allRoles with
  | .error e => ([Ev.listAll], .fatal ("Failed to get roles: " ++ e))
  | .ok all_roles =>
    if all_roles.contains d.role_name then
      match env.preGet with
      | .error e => ([Ev.listAll, Ev.getOne], .fatal ("unhandled exception: " ++ e))
      | .ok pre_raw =>
        if check_mode then
          ([Ev.listAll, Ev.getOne],
            .ok ⟨true, some (d.role_name ++ " would be updated"), none⟩)
        else
          put_branch d diff_mode env [Ev.listAll, Ev.getOne] (some pre_raw)
    else
      if check_mode then
        ([Ev.listAll], .ok ⟨true, some (d.role_name ++ " would be created"), none⟩)
      else
        put_branch d diff_mode env [Ev.listAll] none

/-- `Role.handle` (`elasticsearch_role.py` 39-43): dispatch on `state`. -/
def run (d : RoleDesired) (state : TargetState) (check_mode diff_mode : Bool)
    (env : RoleEnv) : List Ev × Outcome :=
  match state with
  | .absent => handle_absent d check_mode env
  | .present => handle_present d check_mode diff_mode env

/-- The whole module invocation (`plugins/modules/elasticsearch_role.py`
`run_module` together with `Role.__init__`): build the transport client,
then reconcile.  No version-compatibility check is issued on this path. -/
def run_module (client_init : Except String Unit) (d : RoleDesired)
    (state : TargetState) (check_mode diff_mode : Bool) (env : RoleEnv) :
    List Ev × Outcome :=
  match client_init with
  | .error e => ([], .fatal e)
  | .ok _ => run d state check_mode diff_mode env

end Role

/-! Concrete inputs used by counterexamples and witnesses. -/

/-- A concrete desired user for the diff-shape counterexample. -/
def c8d : UserDesired := ⟨"u", none, "pw", none, ["a"], true, UpdatePolicy.always⟩

/-- Pre-snapshot data of user `u`: differs from the post data on `roles` and
carries a field (`username`) outside the comparison projection. -/
def c8pre : AttrMap := [("roles", "r1"), ("username", "u")]

/-- Post-snapshot data of user `u`. -/
def c8post : AttrMap := [("roles", "r2"), ("username", "u")]

/-- The pre `get` response wrapping `c8pre`. -/
def c8preRaw : RawDict := [("u", c8pre)]

/-- The post `get` response wrapping `c8post`. -/
def c8postRaw : RawDict := [("u", c8post)]

/-- Remote responses for the diff-shape counterexample: user exists, put
replaces it, the replacement changed `roles`. -/
def c8env : UserEnv := ⟨.ok ["u"], .ok c8preRaw, .ok false, .ok c8postRaw, .ok true⟩

/-- A concrete desired role for the version-check counterexample. -/
def c9d : RoleDesired := ⟨"r1", ["monitor"], []⟩

/-- Remote responses for the version-check counterexample (empty listing). -/
def c9env : RoleEnv := ⟨.ok [], .ok [], .ok true, .ok [], .ok true⟩

/-- A concrete desired user for the dry-run witness. -/
def w1d : UserDesired := ⟨"alice", none, "pw", none, ["admin"], true, UpdatePolicy.always⟩

/-- Remote responses for the dry-run witness: `alice` is listed. -/
def w1env : UserEnv := ⟨.ok ["alice"], .ok [], .ok true, .ok [], .ok true⟩

/-- A concrete desired user with the `on_create` password policy. -/
def w3d : UserDesired := ⟨"bob", none, "secret", none, ["dev"], true, UpdatePolicy.on_create⟩

/-- Snapshot of the existing user `bob`. -/
def w3pre : RawDict := [("bob", [("roles", "dev")])]

/-- Remote responses for the password-suppression witness: `bob` exists. -/
def w3env : UserEnv := ⟨.ok ["bob"], .ok w3pre, .ok false, .ok w3pre, .ok true⟩

/-- A concrete desired user for the projection witness. -/
def w4d : UserDesired := ⟨"carol", none, "pw", none, ["a"], true, UpdatePolicy.on_create⟩

/-- Pre snapshot of `carol`: same projection as the post snapshot, different
credential hash. -/
def w4pre : RawDict := [("carol", [("roles", "a"), ("password_hash", "h1")])]

/-- Post snapshot of `carol`: only the credential hash differs. -/
def w4post : RawDict := [("carol", [("roles", "a"), ("password_hash", "h2")])]

/-- Remote responses for the projection witness. -/
def w4env : UserEnv := ⟨.ok ["carol"], .ok w4pre, .ok false, .ok w4post, .ok true⟩

/-- A concrete desired user absent from the listing. -/
def w5d : UserDesired := ⟨"eve", none, "pw", none, [], true, UpdatePolicy.always⟩

/-- Remote responses for the absent-noop witness: `eve` is not listed. -/
def w5env : UserEnv := ⟨.ok ["other"], .ok [], .ok true, .ok [], .ok true⟩

/-- A concrete desired user for the delete-race witness. -/
def w6d : UserDesired := ⟨"dave", none, "pw", none, [], true, UpdatePolicy.always⟩

/-- Remote responses for the delete-race witness: `dave` is listed but the
delete call reports `found=false`. -/
def w6env : UserEnv := ⟨.ok ["dave"], .ok [], .ok true, .ok [], .ok false⟩

/-- A concrete desired role absent from the listing. -/
def w7d : RoleDesired := ⟨"r2", ["monitor"], [[("names", "idx")]]⟩

/-- Remote responses for the created-false-without-pre witness: empty listing
yet the put response reports `created=false`. -/
def w7env : RoleEnv := ⟨.ok [], .ok [], .ok false, .ok [], .ok true⟩

/-! Helper lemmas. -/

/-- A string with a non-empty suffix is non-empty. -/
theorem str_append_ne_empty (a b : String) (hb : b ≠ "") : (a ++ b) ≠ "" := by
  intro h
  apply hb
  have h2 := congrArg String.data h
  simp [String.data_append] at h2
  exact String.ext h2.2

/-- The forward-compatibility advisory is never the empty string. -/
theorem msgForward_ne (c s : Nat) : Api.msgForward c s ≠ "" := by
  unfold Api.msgForward
  exact str_append_ne_empty _ _ (by decide)

/-- The equal-versions message is never the empty string. -/
theorem msgFullyCompatible_ne (c s : Nat) : Api.msgFullyCompatible c s ≠ "" := by
  unfold Api.msgFullyCompatible
  exact str_append_ne_empty _ _ (by decide)

/-- The unverified-pairing message is never the empty string. -/
theorem msgUnverified_ne (c s : Nat) : Api.msgUnverified c s ≠ "" := by
  unfold Api.msgUnverified
  exact str_append_ne_empty _ _ (by decide)

/-- In check mode a user invocation only ever issues the listing read, or the
listing read followed by the pre-fetch read. -/
theorem user_check_mode_trace (d : UserDesired) (st : TargetState) (dm : Bool) (env : UserEnv) :
    (User.run d st true dm env).1 = [Ev.listAll] ∨
    (User.run d st true dm env).1 = [Ev.listAll, Ev.getOne] := by
  obtain ⟨au, pg, pc, pog, df⟩ := env
  cases st <;> cases au <;> cases pg <;>
    simp [User.run, User.handle_absent, User.handle_present] <;> split <;> simp

/-- In check mode a role invocation only ever issues the listing read, or the
listing read followed by the pre-fetch read. -/
theorem role_check_mode_trace (d : RoleDesired) (st : TargetState) (dm : Bool) (env : RoleEnv) :
    (Role.run d st true dm env).1 = [Ev.listAll] ∨
    (Role.run d st true dm env).1 = [Ev.listAll, Ev.getOne] := by
  obtain ⟨ar, pg, pc, pog, df⟩ := env
  cases st <;> cases ar <;> cases pg <;>
    simp [Role.run, Role.handle_absent, Role.handle_present] <;> split <;> simp

/-- No user invocation ever emits a version-check event. -/
theorem user_no_version_check (d : UserDesired) (st : TargetState) (cm dm : Bool)
    (env : UserEnv) : Ev.versionCheck ∉ (User.run d st cm dm env).1 := by
  obtain ⟨au, pg, pc, pog, df⟩ := env
  cases st <;> cases au <;> cases pg <;> cases pc <;> cases pog <;> cases df <;> cases cm <;>
    simp [User.run, User.handle_absent, User.handle_present, User.put_branch,
      User.compare_branch] <;>
    (repeat' split) <;> simp

/-- No role invocation ever emits a version-check event. -/
theorem role_no_version_check (d : RoleDesired) (st : TargetState) (cm dm : Bool)
    (env : RoleEnv) : Ev.versionCheck ∉ (Role.run d st cm dm env).1 := by
  obtain ⟨ar, pg, pc, pog, df⟩ := env
  cases st <;> cases ar <;> cases pg <;> cases pc <;> cases pog <;> cases df <;> cases cm <;>
    simp [Role.run, Role.handle_absent, Role.handle_present, Role.put_branch,
      Role.compare_branch] <;>
    (repeat' split) <;> simp

/-- Claim C1: for every desired state and both resource kinds, a dry-run
(check-mode) invocation issues no put and no delete call, yet reports
`changed=true` with message "would be deleted" (absent path, name present),
"would be created" (present path, no pre-snapshot), or "would be updated"
(present path, pre-snapshot exists); the mandatory listing and pre-fetch
reads are still performed and their failure is still fatal. -/
theorem c1_dry_run_non_mutation :
    (∀ d st dm env, (User.run d st true dm env).1.all (fun e => !(Ev.isMutating e)) = true) ∧
    (∀ d st dm env, (Role.run d st true dm env).1.all (fun e => !(Ev.isMutating e)) = true) ∧
    (∀ d dm env names, env.allUsers = .ok names → names.contains d.user_name = true →
      User.run d .absent true dm env =
        ([Ev.listAll], .ok ⟨true, some (d.user_name ++ " would be deleted"), none⟩)) ∧
    (∀ d dm env names, env.allRoles = .ok names → names.contains d.role_name = true →
      Role.run d .absent true dm env =
        ([Ev.listAll], .ok ⟨true, some (d.role_name ++ " would be deleted"), none⟩)) ∧
    (∀ d dm env names, env.allUsers = .ok names → names.contains d.user_name = false →
      User.run d .present true dm env =
        ([Ev.listAll], .ok ⟨true, some (d.user_name ++ " would be created"), none⟩)) ∧
    (∀ d dm env names, env.allRoles = .ok names → names.contains d.role_name = false →
      Role.run d .present true dm env =
        ([Ev.listAll], .ok ⟨true, some (d.role_name ++ " would be created"), none⟩)) ∧
    (∀ d dm env names pre, env.allUsers = .ok names → names.contains d.user_name = true →
      env.preGet = .ok pre →
      User.run d .present true dm env =
        ([Ev.listAll, Ev.getOne], .ok ⟨true, some (d.user_name ++ " would be updated"), none⟩)) ∧
    (∀ d dm env names pre, env.allRoles = .ok names → names.contains d.role_name = true →
      env.preGet = .ok pre →
      Role.run d .present true dm env =
        ([Ev.listAll, Ev.getOne], .ok ⟨true, some (d.role_name ++ " would be updated"), none⟩)) ∧
    (∀ d st dm env e, env.allUsers = .error e →
      User.run d st true dm env = ([Ev.listAll], .fatal ("Failed to get users: " ++ e))) ∧
    (∀ d st dm env e, env.allRoles = .error e →
      Role.run d st true dm env = ([Ev.listAll], .fatal ("Failed to get roles: " ++ e))) ∧
    (∀ d dm env names e, env.allUsers = .ok names → names.contains d.user_name = true →
      env.preGet = .error e →
      User.run d .present true dm env =
        ([Ev.listAll, Ev.getOne], .fatal ("unhandled exception: " ++ e))) ∧
    (∀ d dm env names e, env.allRoles = .ok names → names.contains d.role_name = true →
      env.preGet = .error e →
      Role.run d .present true dm env =
        ([Ev.listAll, Ev.getOne], .fatal ("unhandled exception: " ++ e))) := by
  refine ⟨?_, ?_, ?_, ?_, ?_, ?_, ?_, ?_, ?_, ?_, ?_, ?_⟩
  · intro d st dm env
    rcases user_check_mode_trace d st dm env with h | h <;> rw [h] <;> decide
  · intro d st dm env
    rcases role_check_mode_trace d st dm env with h | h <;> rw [h] <;> decide
  · intro d dm env names h1 h2
    obtain ⟨au, pg, pc, pog, df⟩ := env
    simp only at h1
    subst h1
    simp at h2
    simp [User.run, User.handle_absent, h2]
  · intro d dm env names h1 h2
    obtain ⟨ar, pg, pc, pog, df⟩ := env
    simp only at h1
    subst h1
    simp at h2
    simp [Role.run, Role.handle_absent, h2]
  · intro d dm env names h1 h2
    obtain ⟨au, pg, pc, pog, df⟩ := env
    simp only at h1
    subst h1
    simp at h2
    simp [User.run, User.handle_present, h2]
  · intro d dm env names h1 h2
    obtain ⟨ar, pg, pc, pog, df⟩ := env
    simp only at h1
    subst h1
    simp at h2
    simp [Role.run, Role.handle_present, h2]
  · intro d dm env names pre h1 h2 h3
    obtain ⟨au, pg, pc, pog, df⟩ := env
    simp only at h1 h3
    subst h1; subst h3
    simp at h2
    simp [User.run, User.handle_present, h2]
  · intro d dm env names pre h1 h2 h3
    obtain ⟨ar, pg, pc, pog, df⟩ := env
    simp only at h1 h3
    subst h1; subst h3
    simp at h2
    simp [Role.run, Role.handle_present, h2]
  · intro d st dm env e h1
    obtain ⟨au, pg, pc, pog, df⟩ := env
    simp only at h1
    subst h1
    cases st <;> simp [User.run, User.handle_absent, User.handle_present]
  · intro d st dm env e h1
    obtain ⟨ar, pg, pc, pog, df⟩ := env
    simp only at h1
    subst h1
    cases st <;> simp [Role.run, Role.handle_absent, Role.handle_present]
  · intro d dm env names e h1 h2 h3
    obtain ⟨au, pg, pc, pog, df⟩ := env
    simp only at h1 h3
    subst h1; subst h3
    simp at h2
    simp [User.run, User.handle_present, h2]
  · intro d dm env names e h1 h2 h3
    obtain ⟨ar, pg, pc, pog, df⟩ := env
    simp only at h1 h3
    subst h1; subst h3
    simp at h2
    simp [Role.run, Role.handle_present, h2]

/-- Claim C1 witness: a dry-run delete of the listed user `alice` issues only
the listing read and predicts "would be deleted". -/
theorem c1_witness :
    (w1env.allUsers = .ok ["alice"] ∧
      (["alice"] : List String).contains w1d.user_name = true) ∧
    User.run w1d .absent true false w1env =
      ([Ev.listAll], .ok ⟨true, some (w1d.user_name ++ " would be deleted"), none⟩) :=
  ⟨⟨rfl, by decide⟩, c1_dry_run_non_mutation.2.2.1 w1d false w1env ["alice"] rfl (by decide)⟩

/-- Claim C2 counterexample: `check(8,8)` does not return an empty message —
the equal-versions branch fills in a fully-compatible message, refuting the
claimed "no advisory (empty message)". -/
theorem c2_counterexample :
    (Api.check_version_compatibility 8 8).map CompatibilityReport.message ≠ Except.ok "" := by
  decide

/-- Claim C2 (amended): `check(9,8)` raises; `check(8,9)` returns
`compatible=true` with a non-empty advisory; `check(8,8)` and `check(9,9)`
return `compatible=true` with a non-empty fully-compatible informational
message (not an empty message); `check(7,9)` returns `compatible=true` with
the compatibility-not-verified message. -/
theorem c2_version_matrix :
    Api.check_version_compatibility 9 8 = .error (Api.msgIncompatible 9 8) ∧
    Api.check_version_compatibility 8 9 = .ok ⟨8, 9, true, Api.msgForward 8 9⟩ ∧
    Api.msgForward 8 9 ≠ "" ∧
    Api.check_version_compatibility 8 8 = .ok ⟨8, 8, true, Api.msgFullyCompatible 8 8⟩ ∧
    Api.msgFullyCompatible 8 8 ≠ "" ∧
    Api.check_version_compatibility 9 9 = .ok ⟨9, 9, true, Api.msgFullyCompatible 9 9⟩ ∧
    Api.msgFullyCompatible 9 9 ≠ "" ∧
    Api.check_version_compatibility 7 9 = .ok ⟨7, 9, true, Api.msgUnverified 7 9⟩ ∧
    Api.msgUnverified 7 9 =
      "elasticsearch-py 7.x with Elasticsearch 9.x - compatibility not verified." := by
  decide

/-- Claim C3: with target PRESENT, when the password-update policy is
`on_create` and the user's name was in the listing, the put payload carries
no password field; with policy `always`, or when the name was absent from
the listing, the payload carries the desired password. -/
theorem c3_password_suppression :
    (∀ d dm env names pre, env.allUsers = .ok names → names.contains d.user_name = true →
      env.preGet = .ok pre → d.update_password = UpdatePolicy.on_create →
      Ev.putUser (User.put_payload d none) ∈ (User.run d .present false dm env).1) ∧
    (∀ d dm env names pre, env.allUsers = .ok names → names.contains d.user_name = true →
      env.preGet = .ok pre → d.update_password = UpdatePolicy.always →
      Ev.putUser (User.put_payload d (some d.password)) ∈ (User.run d .present false dm env).1) ∧
    (∀ d dm env names, env.allUsers = .ok names → names.contains d.user_name = false →
      Ev.putUser (User.put_payload d (some d.password)) ∈ (User.run d .present false dm env).1) := by
  refine ⟨?_, ?_, ?_⟩
  · intro d dm env names pre h1 h2 h3 h4
    obtain ⟨au, pg, pc, pog, df⟩ := env
    simp only at h1 h3
    subst h1; subst h3
    simp at h2
    cases pc <;> cases pog <;>
      simp [User.run, User.handle_present, User.put_branch, User.compare_branch, h2, h4] <;>
      (repeat' split) <;> simp
  · intro d dm env names pre h1 h2 h3 h4
    obtain ⟨au, pg, pc, pog, df⟩ := env
    simp only at h1 h3
    subst h1; subst h3
    simp at h2
    cases pc <;> cases pog <;>
      simp [User.run, User.handle_present, User.put_branch, User.compare_branch, h2, h4] <;>
      (repeat' split) <;> simp
  · intro d dm env names h1 h2
    obtain ⟨au, pg, pc, pog, df⟩ := env
    simp only at h1
    subst h1
    simp at h2
    cases pc <;> cases pog <;>
      simp [User.run, User.handle_present, User.put_branch, User.compare_branch, h2] <;>
      (repeat' split) <;> simp

/-- Claim C3 witness: for the existing user `bob` under `on_create`, the put
payload carries no password. -/
theorem c3_witness :
    (w3env.allUsers = .ok ["bob"] ∧ (["bob"] : List String).contains w3d.user_name = true ∧
      w3env.preGet = .ok w3pre ∧ w3d.update_password = UpdatePolicy.on_create) ∧
    Ev.putUser (User.put_payload w3d none) ∈ (User.run w3d .present false false w3env).1 :=
  ⟨⟨rfl, by decide, rfl, rfl⟩,
    c3_password_suppression.1 w3d false w3env ["bob"] w3pre rfl (by decide) rfl rfl⟩

/-- Claim C4: whenever a user reconciliation reaches the pre/post comparison
(put returned `created=false` and a pre-snapshot exists), the changed flag
equals the inequality of the two projections onto
`{roles, full_name, email, enabled, metadata}` — so it depends on those
fields and on nothing else, and snapshots differing only in the credential
hash give `changed=false`. -/
theorem c4_comparable_projection :
    ∀ d dm env names pre post,
      env.allUsers = .ok names → names.contains d.user_name = true →
      env.preGet = .ok pre → env.putCreated = .ok false → env.postGet = .ok post →
      ∃ r, (User.run d .present false dm env).2 = .ok r ∧
        (r.changed = true ↔
          userProjection ((alistGet pre d.user_name).getD []) ≠
          userProjection ((alistGet post d.user_name).getD [])) := by
  intro d dm env names pre post h1 h2 h3 h4 h5
  obtain ⟨au, pg, pc, pog, df⟩ := env
  simp only at h1 h3 h4 h5
  subst h1; subst h3; subst h4; subst h5
  simp at h2
  simp [User.run, User.handle_present, User.put_branch, User.compare_branch, h2]
  split
  · exact ⟨_, rfl, by simp_all⟩
  · exact ⟨_, rfl, by simp_all⟩

/-- Claim C4 witness: `carol` whose pre/post snapshots differ only in the
credential hash — the projections agree, so `changed=false`. -/
theorem c4_witness :
    (w4env.allUsers = .ok ["carol"] ∧
      (["carol"] : List String).contains w4d.user_name = true ∧
      w4env.preGet = .ok w4pre ∧ w4env.putCreated = .ok false ∧
      w4env.postGet = .ok w4post) ∧
    ∃ r, (User.run w4d .present false false w4env).2 = .ok r ∧
      (r.changed = true ↔
        userProjection ((alistGet w4pre w4d.user_name).getD []) ≠
        userProjection ((alistGet w4post w4d.user_name).getD [])) :=
  ⟨⟨rfl, by decide, rfl, rfl, rfl⟩,
    c4_comparable_projection w4d false w4env ["carol"] w4pre w4post rfl (by decide) rfl rfl rfl⟩

/-- Claim C5: with target ABSENT and the desired name not a key of the
listing, the invocation is a no-op for both kinds: `changed=false` and no
delete call — in fact the trace is exactly the listing read. -/
theorem c5_absent_noop :
    (∀ d cm dm env names, env.allUsers = .ok names → names.contains d.user_name = false →
      User.run d .absent cm dm env = ([Ev.listAll], .ok ⟨false, none, none⟩)) ∧
    (∀ d cm dm env names, env.allRoles = .ok names → names.contains d.role_name = false →
      Role.run d .absent cm dm env = ([Ev.listAll], .ok ⟨false, none, none⟩)) := by
  constructor
  · intro d cm dm env names h1 h2
    obtain ⟨au, pg, pc, pog, df⟩ := env
    simp only at h1
    subst h1
    simp at h2
    simp [User.run, User.handle_absent, h2]
  · intro d cm dm env names h1 h2
    obtain ⟨ar, pg, pc, pog, df⟩ := env
    simp only at h1
    subst h1
    simp at h2
    simp [Role.run, Role.handle_absent, h2]

/-- Claim C5 witness: deleting the unlisted user `eve` issues only the
listing read and returns `changed=false`. -/
theorem c5_witness :
    (w5env.allUsers = .ok ["other"] ∧
      (["other"] : List String).contains w5d.user_name = false) ∧
    User.run w5d .absent false false w5env = ([Ev.listAll], .ok ⟨false, none, none⟩) :=
  ⟨⟨rfl, by decide⟩, c5_absent_noop.1 w5d false false w5env ["other"] rfl (by decide)⟩

/-- Claim C6: in a non-dry-run ABSENT reconciliation that issues the delete
call, a `found=false` response keeps `changed=false` (delete race absorbed),
and a `found=true` response gives `changed=true` with message
"name has been deleted" — for both kinds. -/
theorem c6_delete_found_semantics :
    (∀ d dm env names, env.allUsers = .ok names → names.contains d.user_name = true →
      env.deleteFound = .ok false →
      User.run d .absent false dm env =
        ([Ev.listAll, Ev.deleteCall], .ok ⟨false, none, none⟩)) ∧
    (∀ d dm env names, env.allUsers = .ok names → names.contains d.user_name = true →
      env.deleteFound = .ok true →
      User.run d .absent false dm env =
        ([Ev.listAll, Ev.deleteCall],
          .ok ⟨true, some (d.user_name ++ " has been deleted"), none⟩)) ∧
    (∀ d dm env names, env.allRoles = .ok names → names.contains d.role_name = true →
      env.deleteFound = .ok false →
      Role.run d .absent false dm env =
        ([Ev.listAll, Ev.deleteCall], .ok ⟨false, none, none⟩)) ∧
    (∀ d dm env names, env.allRoles = .ok names → names.contains d.role_name = true →
      env.deleteFound = .ok true →
      Role.run d .absent false dm env =
        ([Ev.listAll, Ev.deleteCall],
          .ok ⟨true, some (d.role_name ++ " has been deleted"), none⟩)) := by
  refine ⟨?_, ?_, ?_, ?_⟩ <;> intro d dm env names h1 h2 h3 <;>
    obtain ⟨a0, pg, pc, pog, df⟩ := env <;>
    simp only at h1 h3 <;> subst h1 <;> subst h3 <;> simp at h2 <;>
    first
    | simp [User.run, User.handle_absent, h2]
    | simp [Role.run, Role.handle_absent, h2]

/-- Claim C6 witness: deleting the listed user `dave` while the delete
response reports `found=false` keeps `changed=false`. -/
theorem c6_witness :
    (w6env.allUsers = .ok ["dave"] ∧ (["dave"] : List String).contains w6d.user_name = true ∧
      w6env.deleteFound = .ok false) ∧
    User.run w6d .absent false false w6env =
      ([Ev.listAll, Ev.deleteCall], .ok ⟨false, none, none⟩) :=
  ⟨⟨rfl, by decide, rfl⟩, c6_delete_found_semantics.1 w6d false w6env ["dave"] rfl (by decide) rfl⟩

/-- Claim C7: in a non-dry-run PRESENT reconciliation where the put response
reports `created=false` and no pre-snapshot was fetched (name absent from
the listing), the result is `changed=false` with no message, and no
post-fetch comparison happens: the trace is exactly listing followed by
put. -/
theorem c7_created_false_no_pre :
    (∀ d dm env names, env.allUsers = .ok names → names.contains d.user_name = false →
      env.putCreated = .ok false →
      User.run d .present false dm env =
        ([Ev.listAll, Ev.putUser (User.put_payload d (some d.password))],
          .ok ⟨false, none, none⟩)) ∧
    (∀ d dm env names, env.allRoles = .ok names → names.contains d.role_name = false →
      env.putCreated = .ok false →
      Role.run d .present false dm env =
        ([Ev.listAll, Ev.putRole (Role.put_payload d)], .ok ⟨false, none, none⟩)) := by
  constructor
  · intro d dm env names h1 h2 h3
    obtain ⟨a0, pg, pc, pog, df⟩ := env
    simp only at h1 h3
    subst h1; subst h3
    simp at h2
    simp [User.run, User.handle_present, User.put_branch, h2]
  · intro d dm env names h1 h2 h3
    obtain ⟨a0, pg, pc, pog, df⟩ := env
    simp only at h1 h3
    subst h1; subst h3
    simp at h2
    simp [Role.run, Role.handle_present, Role.put_branch, h2]

/-- Claim C7 witness: role `r2` absent from the listing, put reports
`created=false` — the invocation returns `changed=false` with no message and
no post-fetch. -/
theorem c7_witness :
    (w7env.allRoles = .ok [] ∧ (([] : List String).contains w7d.role_name) = false ∧
      w7env.putCreated = .ok false) ∧
    Role.run w7d .present false false w7env =
      ([Ev.listAll, Ev.putRole (Role.put_payload w7d)], .ok ⟨false, none, none⟩) :=
  ⟨⟨rfl, by decide, rfl⟩, c7_created_false_no_pre.2 w7d false w7env [] rfl (by decide) rfl⟩

/-- Claim C8 counterexample: a user update whose snapshots carry a field
outside the comparison projection (`username`) attaches the rendered full
snapshot data as the diff, which differs from the rendered projection the
claim asserts. -/
theorem c8_counterexample :
    ((User.run c8d .present false true c8env).2 =
      Outcome.ok ⟨true, some (c8d.user_name ++ " has been updated"),
        some (strAttrMap c8pre, strAttrMap c8post)⟩) ∧
    (strAttrMap c8pre, strAttrMap c8post) ≠
      (strProjMap (userProjection c8pre), strProjMap (userProjection c8post)) := by
  decide

/-- Claim C8 (amended): when the pre/post comparison finds the comparable
projections unequal, the result is `changed=true` with message
"name has been updated", and the diff — populated exactly when diff output
was requested — is the rendered *full* pre/post snapshot data, not the
projection (for a user the full per-user data dict; for a role the full
snapshot, which coincides with its projection). -/
theorem c8_update_diff :
    (∀ d dm env names pre post, env.allUsers = .ok names → names.contains d.user_name = true →
      env.preGet = .ok pre → env.putCreated = .ok false → env.postGet = .ok post →
      userProjection ((alistGet pre d.user_name).getD []) ≠
        userProjection ((alistGet post d.user_name).getD []) →
      (User.run d .present false dm env).2 =
        .ok ⟨true, some (d.user_name ++ " has been updated"),
          if dm then
            some (strAttrMap ((alistGet pre d.user_name).getD []),
                  strAttrMap ((alistGet post d.user_name).getD []))
          else none⟩) ∧
    (∀ d dm env names pre post, env.allRoles = .ok names → names.contains d.role_name = true →
      env.preGet = .ok pre → env.putCreated = .ok false → env.postGet = .ok post →
      rawEqv pre post = false →
      (Role.run d .present false dm env).2 =
        .ok ⟨true, some (d.role_name ++ " has been updated"),
          if dm then some (strRawDict pre, strRawDict post) else none⟩) := by
  constructor
  · intro d dm env names pre post h1 h2 h3 h4 h5 h6
    obtain ⟨a0, pg, pc, pog, df⟩ := env
    simp only at h1 h3 h4 h5
    subst h1; subst h3; subst h4; subst h5
    simp at h2
    simp [User.run, User.handle_present, User.put_branch, User.compare_branch, h2, h6]
  · intro d dm env names pre post h1 h2 h3 h4 h5 h6
    obtain ⟨a0, pg, pc, pog, df⟩ := env
    simp only at h1 h3 h4 h5
    subst h1; subst h3; subst h4; subst h5
    simp at h2
    simp [Role.run, Role.handle_present, Role.put_branch, Role.compare_branch, h2, h6]

/-- Claim C8 witness: the diff-requested update of user `u` attaches the
rendered full pre/post data. -/
theorem c8_witness :
    (c8env.allUsers = .ok ["u"] ∧ (["u"] : List String).contains c8d.user_name = true ∧
      c8env.preGet = .ok c8preRaw ∧ c8env.putCreated = .ok false ∧
      c8env.postGet = .ok c8postRaw ∧
      userProjection ((alistGet c8preRaw c8d.user_name).getD []) ≠
        userProjection ((alistGet c8postRaw c8d.user_name).getD [])) ∧
    (User.run c8d .present false true c8env).2 =
      .ok ⟨true, some (c8d.user_name ++ " has been updated"),
        if (true : Bool) then
          some (strAttrMap ((alistGet c8preRaw c8d.user_name).getD []),
                strAttrMap ((alistGet c8postRaw c8d.user_name).getD []))
        else none⟩ :=
  ⟨⟨rfl, by decide, rfl, rfl, rfl, by decide⟩,
    c8_update_diff.1 c8d true c8env ["u"] c8preRaw c8postRaw rfl (by decide) rfl rfl rfl
      (by decide)⟩

/-- Claim C9 counterexample: a concrete role invocation issues a directory
call (the listing) with no version-check event anywhere before it — the
version-compatibility check does not run before directory calls. -/
theorem c9_counterexample :
    ((Role.run_module (.ok ()) c9d .absent false false c9env).1.any Ev.isDirCall = true) ∧
    (((Role.run_module (.ok ()) c9d .absent false false c9env).1.takeWhile
        (fun e => !(Ev.isDirCall e))).contains Ev.versionCheck = false) := by
  decide

/-- Claim C9 (amended): no invocation of the role or user module ever runs
the version-compatibility check — `check_version_compatibility` is defined
but never called on any reconciliation path, so no trace contains a
version-check event and the check's failure cannot abort an invocation. -/
theorem c9_no_version_check :
    (∀ ci d st cm dm env, Ev.versionCheck ∉ (User.run_module ci d st cm dm env).1) ∧
    (∀ ci d st cm dm env, Ev.versionCheck ∉ (Role.run_module ci d st cm dm env).1) := by
  constructor
  · intro ci d st cm dm env
    cases ci
    · simp [User.run_module]
    · simpa [User.run_module] using user_no_version_check d st cm dm env
  · intro ci d st cm dm env
    cases ci
    · simp [Role.run_module]
    · simpa [Role.run_module] using role_no_version_check d st cm dm env

/-- Claim C10: whenever `check_version_compatibility` returns a report
instead of raising (every pairing other than client 9 with server 8), the
report has `compatible=true`, a non-empty message, and carries the given
client and server majors unchanged; `compatible=false` is never observable
in a returned report. -/
theorem c10_report_invariants :
    (∀ c s : Nat, ¬(c = 9 ∧ s = 8) →
      ∃ r, Api.check_version_compatibility c s = .ok r ∧ r.compatible = true ∧
        r.message ≠ "" ∧ r.client_version = c ∧ r.server_version = s) ∧
    (∀ (c s : Nat) (r : CompatibilityReport),
      Api.check_version_compatibility c s = .ok r → r.compatible = true) := by
  constructor
  · intro c s hcs
    unfold Api.check_version_compatibility
    rw [if_neg hcs]
    by_cases h1 : c = 8 ∧ s = 9
    · rw [if_pos h1]
      exact ⟨_, rfl, rfl, msgForward_ne c s, rfl, rfl⟩
    · rw [if_neg h1]
      by_cases h2 : c = s
      · rw [if_pos h2]
        exact ⟨_, rfl, rfl, msgFullyCompatible_ne c s, rfl, rfl⟩
      · rw [if_neg h2]
        exact ⟨_, rfl, rfl, msgUnverified_ne c s, rfl, rfl⟩
  · intro c s r h
    unfold Api.check_version_compatibility at h
    split at h
    · cases h
    · split at h
      · cases h; rfl
      · split at h
        · cases h; rfl
        · cases h; rfl

/-- Claim C10 witness: the 8/9 pairing returns a fully-populated report, and
a report returned for the 8/8 pairing has `compatible=true`. -/
theorem c10_witness :
    (¬((8 : Nat) = 9 ∧ (9 : Nat) = 8)) ∧
    (∃ r, Api.check_version_compatibility 8 9 = .ok r ∧ r.compatible = true ∧
      r.message ≠ "" ∧ r.client_version = 8 ∧ r.server_version = 9) ∧
    ((⟨8, 8, true, Api.msgFullyCompatible 8 8⟩ : CompatibilityReport).compatible = true) :=
  ⟨by decide, c10_report_invariants.1 8 9 (by decide),
    c10_report_invariants.2 8 8 ⟨8, 8, true, Api.msgFullyCompatible 8 8⟩ (by decide)⟩

end Elasticstack
